import Mathlib

/-!
# WRowFusion — verification of the S4 protocol codec and rower-state aggregator

Shallow embedding of the core of the WRowFusion bridge daemon:

* `src/s4/s4if.py`   — protocol codec (`MEMORY_MAP`, `read_reply`, flag bitfields)
* `src/s4/s4_workouts.py` — `Workout` and `Zone` builders
* `src/s4/s4.py`     — `RowerState` aggregator (event handlers, pulse monitor,
  snapshot selection)

Python conventions used in the translation:
* Python `int` values decoded from the serial stream are `Nat`;
  arithmetic that can go negative is done in `Int`.
* Python floats are modelled as exact rationals (`ℚ`); `round` is modelled by
  `pyRound`, round-half-to-even, matching CPython's `round` on exact values.
* `None` is `Option.none`; attributes that may hold `None` are `Option _`.
* Python dicts keyed by small keys are association lists in insertion order.
-/

namespace WRowFusion

/-- CPython `round(x)`: round half to even, on exact rationals. -/
def pyRound (q : ℚ) : ℤ :=
  let f : ℤ := Rat.floor q
  let r : ℚ := q - f
  if r < 1/2 then f
  else if 1/2 < r then f + 1
  else if f % 2 = 0 then f else f + 1

/-- CPython `round(x, 2)`: round to two decimal places, half to even. -/
def pyRound2 (q : ℚ) : ℚ :=
  (pyRound (q * 100) : ℚ) / 100

/-- Truthiness of a Python `Optional[int]`: `None` and `0` are falsy. -/
def optTruthy (o : Option Nat) : Bool :=
  match o with
  | none => false
  | some v => v ≠ 0

/-- Python dict assignment `d[k] = v` on an insertion-ordered association
list with `Nat` keys: replace an existing binding in place, else append. -/
def insertKV (l : List (Nat × Nat)) (k v : Nat) : List (Nat × Nat) :=
  match l with
  | [] => [(k, v)]
  | (k', v') :: rest => if k' = k then (k, v) :: rest else (k', v') :: insertKV rest k v

/-!
## `src/s4/s4if.py` — protocol codec
-/

/-- Register size (`'single' | 'double' | 'triple'` in `MEMORY_MAP`). -/
inductive MSize where
  | single
  | double
  | triple
deriving DecidableEq, Repr

/-- Byte order (`'big' | 'little'` in `MEMORY_MAP`). -/
inductive Endian where
  | big
  | little
deriving DecidableEq, Repr

/-- One `MEMORY_MAP` entry (static description of an S4 register). -/
structure MemoryField where
  type : String
  size : MSize
  base : Nat
  endian : Endian
  frequency : String
  category : String
  exclude_from_poll_loop : Bool := false
deriving DecidableEq, Repr

/-- The unit of communication parsed from the rower
(`@dataclass S4Event` in `s4if.py`).  `at` is the millisecond timestamp
captured at parse time; it is passed in explicitly here since the
embedding has no clock. -/
structure S4Event where
  type : String
  value : Option Nat := none
  raw : Option String := none
  /-- The source attribute is named `at`; `at` is reserved in Lean. -/
  at_ms : Nat := 0
deriving DecidableEq, Repr

/-!
### Workout-mode / display-mode bitfields (`IntFlag` classes)
-/

namespace WorkoutMode

def ZONE_HEARTRATE : Nat := 1
def ZONE_INTENSITY : Nat := 2
def ZONE_STROKERATE : Nat := 4
def PROGNOSTICS_ACTIVE : Nat := 8
def WORKOUT_DISTANCE : Nat := 16
def WORKOUT_DURATION : Nat := 32
def WORKOUT_DISTANCE_INTERVAL : Nat := 64
def WORKOUT_DURATION_INTERVAL : Nat := 128

def WORKOUT_MASK : Nat :=
  WORKOUT_DISTANCE ||| WORKOUT_DURATION ||| WORKOUT_DISTANCE_INTERVAL ||| WORKOUT_DURATION_INTERVAL

def ZONE_MASK : Nat := ZONE_HEARTRATE ||| ZONE_INTENSITY ||| ZONE_STROKERATE

def changed_workout_bits (old new : Nat) : Bool :=
  (old ^^^ new) &&& WORKOUT_MASK ≠ 0

def changed_zone_bits (old new : Nat) : Bool :=
  (old ^^^ new) &&& ZONE_MASK ≠ 0

def has_workout_set (flags : Nat) : Bool :=
  flags &&& WORKOUT_MASK ≠ 0

def has_zone_set (flags : Nat) : Bool :=
  flags &&& ZONE_MASK ≠ 0

def is_duration (flags : Nat) : Bool :=
  flags &&& (WORKOUT_DURATION ||| WORKOUT_DURATION_INTERVAL) ≠ 0

def is_distance (flags : Nat) : Bool :=
  flags &&& (WORKOUT_DISTANCE ||| WORKOUT_DISTANCE_INTERVAL) ≠ 0

def is_interval (flags : Nat) : Bool :=
  flags &&& (WORKOUT_DURATION_INTERVAL ||| WORKOUT_DISTANCE_INTERVAL) ≠ 0

/-- `WorkoutMode.get_zone_type`: returns the name of the selected zone, or the
empty string if no zone bit is set (note: the empty string, not `None`). -/
def get_zone_type (flags : Nat) : String :=
  if flags &&& ZONE_INTENSITY ≠ 0 then "intensity"
  else if flags &&& ZONE_HEARTRATE ≠ 0 then "heart_rate"
  else if flags &&& ZONE_STROKERATE ≠ 0 then "stroke_rate"
  else ""

end WorkoutMode

namespace DistanceMode

def PROJECTED_HEADER : Nat := 1
def DISTANCE_HEADER : Nat := 2
def UNITS_METRES : Nat := 4
def UNITS_MILES : Nat := 8
def UNITS_KM : Nat := 16
def UNITS_STROKES : Nat := 32
def UNITS_CALORIES : Nat := 64
def DIG_OFF : Nat := 128

def UNIT_MASK : Nat :=
  UNITS_METRES ||| UNITS_MILES ||| UNITS_KM ||| UNITS_STROKES ||| UNITS_CALORIES

/-- `DistanceMode.get_single_unit_mode`: the unit bits of `mode` when exactly
one unit bit is set, else `None`. -/
def get_single_unit_mode (mode : Nat) : Option Nat :=
  let unit_bits := mode &&& UNIT_MASK
  if unit_bits ≠ 0 ∧ unit_bits &&& (unit_bits - 1) = 0 then some unit_bits else none

end DistanceMode

namespace IntensityMode

def UNITS_MPS : Nat := 1
def UNITS_MPH : Nat := 2
def UNITS_SECS_500m : Nat := 4
def UNITS_SECS_2KM : Nat := 8
def UNITS_WATTS : Nat := 16
def UNITS_CAL_HR : Nat := 32
def LITRES_LABEL : Nat := 64
def AVERAGE_HEADER : Nat := 128

def UNIT_MASK : Nat :=
  UNITS_MPS ||| UNITS_MPH ||| UNITS_SECS_500m ||| UNITS_SECS_2KM ||| UNITS_WATTS ||| UNITS_CAL_HR

/-- `IntensityMode.get_single_unit_mode`: the unit bits of `mode` when exactly
one unit bit is set, else `None`. -/
def get_single_unit_mode (mode : Nat) : Option Nat :=
  let unit_bits := mode &&& UNIT_MASK
  if unit_bits ≠ 0 ∧ unit_bits &&& (unit_bits - 1) = 0 then some unit_bits else none

end IntensityMode

/-!
## `src/s4/s4_workouts.py` — Workout builder
-/

/-- The `Workout` builder (`class Workout`).  `workout` is the attribute that
`update_from_event` creates dynamically on `workout_intervals` events
(`self.workout = max(evt.value - 1, 0)`); it is distinct from `intervals`. -/
structure Workout where
  _workout_flags : Option Nat := none
  type : Option String := none
  intervals_set : Option Bool := none
  intervals : Option Nat := none
  units : Option String := none
  work_targets : List (Nat × Nat) := []
  rest_durations : List (Nat × Nat) := []
  workout : Option Nat := none
deriving DecidableEq, Repr

/-- `Workout.__init__` / `Workout.reset`. -/
def Workout.init : Workout := {}

/-- The body of `Workout.update_if_flags_changed` past the no-change early
return: reset the builder and repopulate it from the flag byte. -/
def Workout.update_flags_go (flags : Nat) : Workout × Bool :=
  let w : Workout := Workout.init
  let w :=
    if WorkoutMode.has_workout_set flags then
      let w :=
        if WorkoutMode.is_duration flags then
          { w with type := some "duration", units := some "secs" }
        else if WorkoutMode.is_distance flags then
          { w with type := some "distance" }
        else w
      { w with intervals_set := some (WorkoutMode.is_interval flags) }
    else
      { w with type := some "just_row", intervals_set := some false }
  ({ w with _workout_flags := some flags }, true)

/-- `Workout.update_if_flags_changed`: returns the updated builder and whether
the workout bits of the flag byte changed. -/
def Workout.update_if_flags_changed (w : Workout) (flags : Nat) : Workout × Bool :=
  match w._workout_flags with
  | some old =>
    if ¬ WorkoutMode.changed_workout_bits old flags then (w, false)
    else Workout.update_flags_go flags
  | none => Workout.update_flags_go flags

/-- The `unit_map` lookup in `Workout.update_from_event`
(`dict.get` returns `None` for the calories bit). -/
def Workout.distance_unit_map (unit_bits : Nat) : Option String :=
  if unit_bits = DistanceMode.UNITS_METRES then some "metres"
  else if unit_bits = DistanceMode.UNITS_MILES then some "miles"
  else if unit_bits = DistanceMode.UNITS_KM then some "km"
  else if unit_bits = DistanceMode.UNITS_STROKES then some "strokes"
  else none

/-- Value of a maximal leading run of decimal digits (at least one), as matched
by the regex group `(\d+)`. -/
def leadingNat (cs : List Char) : Option Nat :=
  match cs with
  | [] => none
  | c :: _ =>
    if c.isDigit then
      some ((cs.takeWhile Char.isDigit).foldl (fun acc d => acc * 10 + (d.toNat - 48)) 0)
    else none

/-- `re.match(r"workout_(work|rest)(\d+)", evt.type)`: anchored at the start,
not at the end.  Returns the kind (`true` for work) and the leg index. -/
def parseWorkRest (t : String) : Option (Bool × Nat) :=
  let cs := t.toList
  if cs.take 12 = "workout_work".toList then
    (leadingNat (cs.drop 12)).map (fun i => (true, i))
  else if cs.take 12 = "workout_rest".toList then
    (leadingNat (cs.drop 12)).map (fun i => (false, i))
  else none

/-- `Workout.update_from_event`.  Note the `workout_intervals` arm writes the
`workout` attribute, not `intervals` (`self.workout = max(evt.value - 1, 0)`;
on naturals the truncated subtraction `v - 1` equals `max(v - 1, 0)`). -/
def Workout.update_from_event (w : Workout) (evt : S4Event) : Workout :=
  match evt.value with
  | none => w
  | some v =>
    if evt.type = "workout_intervals" then
      { w with workout := some (v - 1) }
    else if evt.type = "distance1_disp_flags" then
      match DistanceMode.get_single_unit_mode v with
      | none => w
      | some unit_bits => { w with units := Workout.distance_unit_map unit_bits }
    else
      match parseWorkRest evt.type with
      | none => w
      | some (true, i) => { w with work_targets := insertKV w.work_targets i v }
      | some (false, i) => { w with rest_durations := insertKV w.rest_durations i v }

/-- `Workout.is_valid`. -/
def Workout.is_valid (w : Workout) : Bool :=
  match w.type, w.units with
  | none, _ => false
  | some _, none => false
  | some t, some u =>
    if t = "duration" ∧ u ≠ "secs" then false
    else if t = "distance" ∧ u ∉ ["metres", "strokes", "miles", "km"] then false
    else
      -- `if self.intervals_set is None:` only returns when `intervals` is also
      -- `None`; otherwise it logs a warning and falls through.
      if w.intervals_set = none ∧ w.intervals = none then false
      else if w.intervals_set = some true then
        match w.intervals with
        | none => false
        | some n =>
          if n = 0 then false
          else if w.work_targets.length + w.rest_durations.length > n then false
          else decide (w.work_targets.length + w.rest_durations.length = n)
      else
        decide (w.work_targets.length = 1)

/-!
## `src/s4/s4_workouts.py` — Zone builder
-/

/-- The `Zone` builder (`class Zone`).  `bounds` is a dict from unit label to
an `(lower, upper)` pair; it starts empty and is populated by
`_reset_bounds`. -/
structure Zone where
  _workout_flags : Option Nat := none
  _zone_trigger_flags : Option Nat := none
  type : Option String := none
  units : Option String := none
  bounds : List (String × (Option Nat × Option Nat)) := []
deriving DecidableEq, Repr

/-- `Zone.__init__` / `Zone.reset`. -/
def Zone.init : Zone := {}

/-- The table `_reset_bounds` assigns to `self.bounds`. -/
def Zone.cleared_bounds : List (String × (Option Nat × Option Nat)) :=
  [ ("bpm", (none, none)),
    ("mps", (none, none)),
    ("mph", (none, none)),
    ("500m_pace", (none, none)),
    ("2km_pace", (none, none)),
    ("spm", (none, none)) ]

/-- `Zone._reset_bounds`. -/
def Zone._reset_bounds (z : Zone) : Zone :=
  { z with bounds := Zone.cleared_bounds }

/-- The body of `Zone.reset_bounds_if_flags_changed` past the no-change early
return.  Two source facts are reflected here:
1. the guard `if zone_type is None: return False` never fires, because
   `get_zone_type` returns a string (the empty string when no zone bit is
   set), never `None`;
2. the line `self._reset_bounds` lacks call parentheses — it evaluates the
   bound method without calling it, so the bounds table is left unchanged. -/
def Zone.reset_bounds_go (z : Zone) (flags : Nat) : Zone × Bool :=
  let z := { z with _zone_trigger_flags := some flags }
  let _zone_type := WorkoutMode.get_zone_type flags
  (z, true)

/-- `Zone.reset_bounds_if_flags_changed`. -/
def Zone.reset_bounds_if_flags_changed (z : Zone) (flags : Nat) : Zone × Bool :=
  match z._zone_trigger_flags with
  | some old_flags =>
    if old_flags = flags then (z, false)
    else Zone.reset_bounds_go z flags
  | none => Zone.reset_bounds_go z flags

/-- The body of `Zone.update_type_if_flags_changed` past the no-change early
return. -/
def Zone.update_type_go (z : Zone) (flags : Nat) : Zone × Bool :=
  let z := { z with _workout_flags := some flags }
  let zone_type := WorkoutMode.get_zone_type flags
  let z := { z with type := some zone_type, units := none }
  let z :=
    if z.type = some "heart_rate" then { z with units := some "bpm" }
    else if z.type = some "stroke_rate" then { z with units := some "spm" }
    else z
  (Zone._reset_bounds z, true)

/-- `Zone.update_type_if_flags_changed`. -/
def Zone.update_type_if_flags_changed (z : Zone) (flags : Nat) : Zone × Bool :=
  match z._workout_flags with
  | some old =>
    if ¬ WorkoutMode.changed_zone_bits old flags then (z, false)
    else Zone.update_type_go z flags
  | none => Zone.update_type_go z flags

/-- The `unit_map` lookup in `Zone.update_from_event`. -/
def Zone.intensity_unit_map (unit_bits : Nat) : Option String :=
  if unit_bits = IntensityMode.UNITS_MPS then some "mps"
  else if unit_bits = IntensityMode.UNITS_MPH then some "mph"
  else if unit_bits = IntensityMode.UNITS_SECS_500m then some "500m_pace"
  else if unit_bits = IntensityMode.UNITS_SECS_2KM then some "2km_pace"
  else none

/-- The `label_map` in `Zone.update_from_event` (`dict.get`). -/
def Zone.label_map (short_label : String) : Option String :=
  if short_label = "hr" then some "bpm"
  else if short_label = "mps" then some "mps"
  else if short_label = "mph" then some "mph"
  else if short_label = "500m_pace" then some "500m_pace"
  else if short_label = "2km_pace" then some "2km_pace"
  else if short_label = "sr" then some "spm"
  else none

/-- `re.match(r"zone_(int_)?([a-z0-9]+)_(upper|lower)", evt.type)`:
returns the label group and whether the bound is the lower one.
Group 2 is a maximal run of `[a-z0-9]` (it cannot cross an underscore),
after which the literal `_upper` or `_lower` must follow. -/
def parseZoneBound (t : String) : Option (String × Bool) :=
  let cs := t.toList
  if cs.take 5 = "zone_".toList then
    let cs := cs.drop 5
    let cs := if cs.take 4 = "int_".toList then cs.drop 4 else cs
    let label := cs.takeWhile (fun c => c.isLower ∨ c.isDigit)
    let rest := cs.dropWhile (fun c => c.isLower ∨ c.isDigit)
    if label ≠ [] then
      if rest.take 6 = "_upper".toList then some (String.mk label, false)
      else if rest.take 6 = "_lower".toList then some (String.mk label, true)
      else none
    else none
  else none

/-- Python `if key in self.bounds: self.bounds[key] = ...` on the
association-list model: update the pair at `key` in place, leave the dict
unchanged when the key is absent. -/
def updateBound (l : List (String × (Option Nat × Option Nat))) (k : String)
    (f : Option Nat × Option Nat → Option Nat × Option Nat) :
    List (String × (Option Nat × Option Nat)) :=
  match l with
  | [] => []
  | (k', p) :: rest =>
    if k' = k then (k', f p) :: rest else (k', p) :: updateBound rest k f

/-- `Zone.update_from_event`. -/
def Zone.update_from_event (z : Zone) (evt : S4Event) : Zone :=
  match evt.value with
  | none => z
  | some v =>
    if evt.type = "intensity2_disp_flags" then
      match IntensityMode.get_single_unit_mode v with
      | none => z
      | some unit_bits => { z with units := Zone.intensity_unit_map unit_bits }
    else
      match parseZoneBound evt.type with
      | none => z
      | some (short_label, is_lower) =>
        match Zone.label_map short_label with
        | none => z
        | some key =>
          { z with bounds :=
              (updateBound z.bounds key
                (fun p => if is_lower then (some v, p.2) else (p.1, some v))) }

/-!
## `src/s4/s4if.py` — `MEMORY_MAP` and `read_reply`

Only the uncommented entries of the source dictionary appear; commented-out
entries (`03D`, `040`, `043`, `045`, `046`, the two earlier `047` lines,
`148`, `14C`, `1EE`) are not part of the dict.
-/

/-- Abbreviation for building a `MEMORY_MAP` entry. -/
def mmEntry (addr ty : String) (size : MSize) (base : Nat) (endian : Endian)
    (freq cat : String) (excl : Bool := false) : String × MemoryField :=
  (addr, { type := ty, size := size, base := base, endian := endian,
           frequency := freq, category := cat, exclude_from_poll_loop := excl })

/-- `MEMORY_MAP` from `s4if.py`, in source declaration order. -/
def MEMORY_MAP : List (String × MemoryField) :=
  [ mmEntry "00D" "screen_mode" .single 16 .big "low" "state",
    mmEntry "00E" "screen_sub_mode" .single 16 .big "low" "state",
    mmEntry "00F" "intervals_remaining" .single 16 .big "low" "state",
    mmEntry "03E" "workout_flags" .single 16 .big "low" "state",
    mmEntry "03F" "function_flags" .single 16 .big "low" "state",
    mmEntry "041" "intensity2_disp_flags" .single 16 .big "low" "intensity",
    mmEntry "042" "distance1_disp_flags" .single 16 .big "low" "distance",
    mmEntry "044" "program_disp_flags" .single 16 .big "low" "program" true,
    mmEntry "047" "misc_disp_flags" .single 16 .big "low" "state" true,
    mmEntry "055" "total_distance" .double 16 .big "high" "rowing",
    mmEntry "054" "total_distance_dec" .single 16 .big "high" "rowing",
    mmEntry "088" "watts" .double 16 .big "high" "rowing",
    mmEntry "08A" "total_calories" .triple 16 .big "high" "rowing",
    mmEntry "090" "zone_hr_upper" .single 16 .big "low" "zone",
    mmEntry "091" "zone_hr_lower" .single 16 .big "low" "zone",
    mmEntry "092" "zone_int_mps_upper" .double 16 .little "low" "zone",
    mmEntry "094" "zone_int_mps_lower" .double 16 .little "low" "zone",
    mmEntry "096" "zone_int_mph_upper" .double 16 .little "low" "zone",
    mmEntry "098" "zone_int_mph_lower" .double 16 .little "low" "zone",
    mmEntry "09A" "zone_int_500m_upper" .double 16 .little "low" "zone",
    mmEntry "09C" "zone_int_500m_lower" .double 16 .little "low" "zone",
    mmEntry "09E" "zone_int_2km_upper" .double 16 .little "low" "zone",
    mmEntry "0A0" "zone_int_2km_lower" .double 16 .little "low" "zone",
    mmEntry "0A2" "zone_sr_upper" .single 16 .big "low" "zone",
    mmEntry "0A3" "zone_sr_lower" .single 16 .big "low" "zone",
    mmEntry "0A9" "tank_volume" .single 16 .big "low" "miscellaneous",
    mmEntry "140" "stroke_count" .double 16 .big "high" "rowing",
    mmEntry "142" "avg_time_stroke_whole" .single 16 .big "high" "rowing",
    mmEntry "143" "avg_time_stroke_pull" .single 16 .big "high" "rowing",
    mmEntry "14A" "avg_distance_cmps" .double 16 .big "high" "rowing",
    mmEntry "1A0" "heart_rate" .single 16 .big "high" "rowing",
    mmEntry "1A5" "500m_pace" .double 16 .little "high" "rowing" true,
    mmEntry "1A9" "stroke_rate" .single 16 .big "high" "rowing" true,
    mmEntry "1E3" "display_hr" .single 10 .big "high" "rowing",
    mmEntry "1E2" "display_min" .single 10 .big "high" "rowing",
    mmEntry "1E1" "display_sec" .single 10 .big "high" "rowing",
    mmEntry "1E0" "display_sec_dec" .single 10 .big "high" "rowing",
    mmEntry "1E8" "workout_total_time" .double 16 .big "low" "workout_stat",
    mmEntry "1EA" "workout_total_metres" .double 16 .big "low" "workout_stat",
    mmEntry "1EC" "workout_total_strokes" .double 16 .big "low" "workout_stat",
    mmEntry "1B0" "workout_work1" .double 16 .big "low" "workout",
    mmEntry "1B2" "workout_rest1" .double 16 .big "low" "workout",
    mmEntry "1B4" "workout_work2" .double 16 .big "low" "workout",
    mmEntry "1B6" "workout_rest2" .double 16 .big "low" "workout",
    mmEntry "1B8" "workout_work3" .double 16 .big "low" "workout",
    mmEntry "1BA" "workout_rest3" .double 16 .big "low" "workout",
    mmEntry "1BC" "workout_work4" .double 16 .big "low" "workout",
    mmEntry "1BE" "workout_rest4" .double 16 .big "low" "workout",
    mmEntry "1C0" "workout_work5" .double 16 .big "low" "workout",
    mmEntry "1C2" "workout_rest5" .double 16 .big "low" "workout",
    mmEntry "1C4" "workout_work6" .double 16 .big "low" "workout",
    mmEntry "1C6" "workout_rest6" .double 16 .big "low" "workout",
    mmEntry "1C8" "workout_work7" .double 16 .big "low" "workout",
    mmEntry "1CA" "workout_rest7" .double 16 .big "low" "workout",
    mmEntry "1CC" "workout_work8" .double 16 .big "low" "workout",
    mmEntry "1CE" "workout_rest8" .double 16 .big "low" "workout",
    mmEntry "1D0" "workout_work9" .double 16 .big "low" "workout",
    mmEntry "1D9" "workout_intervals" .single 16 .big "low" "workout" ]

/-- `MEMORY_MAP.get(address)` where `address` is a slice of the response
line.  Lines are modelled as `List Char`; keys compare by their characters. -/
def mmLookup (addr : List Char) : Option MemoryField :=
  (MEMORY_MAP.find? (fun e => e.1.toList == addr)).map (fun e => e.2)

/-- Value of one digit character under `base`, as accepted by Python
`int(s, base)` (digits and letters of either case whose value is below the
base). -/
def digitVal (base : Nat) (c : Char) : Option Nat :=
  let v :=
    if '0' ≤ c ∧ c ≤ '9' then some (c.toNat - 48)
    else if 'a' ≤ c ∧ c ≤ 'z' then some (c.toNat - 97 + 10)
    else if 'A' ≤ c ∧ c ≤ 'Z' then some (c.toNat - 65 + 10)
    else none
  v.bind (fun d => if d < base then some d else none)

/-- Python `int(s, base)` on a plain digit string: fails on the empty string
and on any character that is not a digit of the base.  (Python additionally
accepts signs, surrounding whitespace and underscores; no such input occurs
on the paths modelled here.) -/
def parseIntStr (base : Nat) (cs : List Char) : Option Nat :=
  match cs with
  | [] => none
  | _ => cs.foldl (fun acc c => acc.bind (fun a => (digitVal base c).map (fun d => a * base + d)))
      (some 0)

/-- `SIZE_PARSE_MAP`: the slice of the response line holding the value
digits (`cmd[6:8]`, `cmd[6:10]`, `cmd[6:12]`). -/
def sizeParseSlice (size : MSize) (cmd : List Char) : List Char :=
  match size with
  | .single => (cmd.drop 6).take 2
  | .double => (cmd.drop 6).take 4
  | .triple => (cmd.drop 6).take 6

/-- `read_reply(cmd)` from `s4if.py`: decode a memory-read response line.
`at_ms` is the parse-time timestamp that `S4Event.build` captures. -/
def read_reply (cmd : List Char) (at_ms : Nat) : Option S4Event :=
  if cmd.length < 6 then none
  else
    let address := (cmd.drop 3).take 3
    match mmLookup address with
    | none => none
    | some memory =>
      let value_str := sizeParseSlice memory.size cmd
      match parseIntStr memory.base value_str with
      | none => none
      | some value =>
        let swapped : Option Nat :=
          if memory.endian = Endian.little then
            if memory.size = MSize.double ∧ value_str.length = 4 then
              match parseIntStr 16 (value_str.take 2),
                    parseIntStr 16 ((value_str.drop 2).take 2) with
              | some high, some low => some ((low <<< 8) ||| high)
              | _, _ => none
            else if memory.size = MSize.triple ∧ value_str.length = 6 then
              match parseIntStr 16 (value_str.take 2),
                    parseIntStr 16 ((value_str.drop 2).take 2),
                    parseIntStr 16 ((value_str.drop 4).take 2) with
              | some high, some mid, some low => some ((low <<< 16) ||| (mid <<< 8) ||| high)
              | _, _, _ => none
            else some value
          else some value
        swapped.map (fun v =>
          { type := memory.type, value := some v, raw := some (String.mk cmd), at_ms := at_ms })

/-- `Zone.is_valid`. -/
def Zone.is_valid (z : Zone) : Bool :=
  match z.type, z.units with
  | none, _ => false
  | some _, none => false
  | some t, some u =>
    if t = "intensity" ∧ u ∉ ["mps", "mph", "500m_pace", "2km_pace"] then false
    else if z.bounds.any (fun kv => kv.2.1 = none ∨ kv.2.2 = none) then false
    else true

/-!
## `src/s4/s4.py` — the `RowerState` aggregator

Module constants, the three snapshot dictionaries, the event handlers, the
pulse monitor and the snapshot reader.  Each processed event invokes the two
registered callbacks; they are applied in registration order
(`pulse_monitor` first, then `on_rower_event`).  The wall-clock value
`int(round(time.time() * 1000))` read by `pulse_monitor` is passed in
explicitly as `now`.
-/

/-- `USE_CONCEPT2_POWER` (source default: `False`). -/
def USE_CONCEPT2_POWER : Bool := false

/-- `NUM_STROKES_FOR_ROLLING_AVG_WATTS`. -/
def NUM_STROKES_FOR_ROLLING_AVG_WATTS : Nat := 4

/-- `NO_ROWING_PULSE_GAP` in milliseconds. -/
def NO_ROWING_PULSE_GAP : Nat := 300

/-- `IGNORE_LIST` from `s4.py`.  The source list literal has no comma after
`'ms_stored'`, so Python concatenates the adjacent string literals
`'ms_stored'` and `'500m_pace'` into the single element
`"ms_stored500m_pace"`; in particular `"500m_pace"` itself is *not* in the
list. -/
def IGNORE_LIST : List String :=
  [ "wr", "ok", "ping", "model", "pulse", "exit",
    "none",
    "total_speed_cmps",
    "ms_stored500m_pace",
    "stroke_rate",
    "workout_limit" ]

/-- One of the three `WRValues` dictionaries (`WRValues_rst`, `WRValues`,
`WRValues_standstill`).  Fields that handlers assign raw event values to
(`evt.value`, possibly `None`) are `Option Nat`; fields always assigned
computed numbers are `Int`/`ℚ`. -/
structure WRSnapshot where
  paddle_turning : Bool
  stroke_rate_pm : ℚ
  stroke_count : Option Nat
  total_distance_m : Option Nat
  instant_500m_pace_secs : Int
  speed_cmps : Nat
  instant_watts : Int
  total_calories : Option Nat
  heart_rate_bpm : Option Nat
  elapsed_time_secs : Int
  stroke_ratio : ℚ
deriving DecidableEq, Repr

/-- The `WRValues_rst` dictionary built in `_zero_state`. -/
def zeroSnapshot : WRSnapshot :=
  { paddle_turning := false,
    stroke_rate_pm := 0,
    stroke_count := some 0,
    total_distance_m := some 0,
    instant_500m_pace_secs := 0,
    speed_cmps := 0,
    instant_watts := 0,
    total_calories := some 0,
    heart_rate_bpm := some 0,
    elapsed_time_secs := 0,
    stroke_ratio := 0 }

/-- The mutable state of `class RowerState` after `initialise` has run.
`request_categories` models the `_request_categories` dict of the attached
`Rower` interface, which the handlers mutate through
`set_request_category`.  The log-only attributes (`_logger_cache`,
`_data_logger`) and `session_tracker` are omitted: no handler or reader
consults them (`_emit_session_signal` is never registered as a
callback). -/
structure RowerState where
  _recent_strokes_max_power : List Nat
  _stroke_max_power : Nat
  _drive_phase : Bool
  _watts_event_value : Option Nat
  _rolling_avg_watts : Int
  _concept2_watts : ℚ
  _500m_pace : Option Nat
  _last_check_for_pulse : Nat
  _pulse_event_time : Nat
  _paddle_turning : Bool
  _seconds_wr : Option Nat
  _minutes_wr : Option Nat
  _hours_wr : Option Nat
  _secdecWR : Option Nat
  _elapsed_time : ℚ
  _total_distance_m : Option Nat
  _total_distance_dec : Option Nat
  _total_distance_cm : Nat
  _stroke_duration : Nat
  _drive_duration : Nat
  _workout_builder : Workout
  workout : Option Workout
  _zone_builder : Zone
  zone : Option Zone
  tank_volume : Option Nat
  WRValues_rst : WRSnapshot
  WRValues : WRSnapshot
  WRValues_standstill : WRSnapshot
  request_categories : List (String × Bool)
deriving DecidableEq, Repr

/-- `Rower.set_request_category` on the category dict. -/
def setCategory (l : List (String × Bool)) (cat : String) (b : Bool) : List (String × Bool) :=
  match l with
  | [] => [(cat, b)]
  | (c, v) :: rest => if c = cat then (c, b) :: rest else (c, v) :: setCategory rest cat b

/-- The initial `_request_categories` dict of `Rower.__init__`. -/
def initCategories : List (String × Bool) :=
  [ ("rowing", true), ("state", true), ("workout", false), ("workout_stat", false),
    ("zone", false), ("intensity", false), ("distance", false), ("duration", false),
    ("program", true), ("heart_rate", false), ("stroke_rate", false),
    ("miscellaneous", false), ("display", false) ]

/-- `RowerState._zero_state`: reset every attribute and all three snapshot
dictionaries (the request-category dict is not touched). -/
def RowerState._zero_state (s : RowerState) : RowerState :=
  { _recent_strokes_max_power := [],
    _stroke_max_power := 0,
    _drive_phase := false,
    _watts_event_value := some 0,
    _rolling_avg_watts := 0,
    _concept2_watts := 0,
    _500m_pace := some 0,
    _last_check_for_pulse := 0,
    _pulse_event_time := 0,
    _paddle_turning := false,
    _seconds_wr := some 0,
    _minutes_wr := some 0,
    _hours_wr := some 0,
    _secdecWR := some 0,
    _elapsed_time := 0,
    _total_distance_m := some 0,
    _total_distance_dec := some 0,
    _total_distance_cm := 0,
    _stroke_duration := 0,
    _drive_duration := 0,
    _workout_builder := Workout.init,
    workout := none,
    _zone_builder := Zone.init,
    zone := none,
    tank_volume := some 0,
    WRValues_rst := zeroSnapshot,
    WRValues := zeroSnapshot,
    WRValues_standstill := zeroSnapshot,
    request_categories := s.request_categories }

/-- The aggregator state right after `RowerState.initialise`: `_zero_state`
applied with the interface's initial category dict. -/
def initState : RowerState :=
  RowerState._zero_state
    { _recent_strokes_max_power := [], _stroke_max_power := 0, _drive_phase := false,
      _watts_event_value := none, _rolling_avg_watts := 0, _concept2_watts := 0,
      _500m_pace := none, _last_check_for_pulse := 0, _pulse_event_time := 0,
      _paddle_turning := false, _seconds_wr := none, _minutes_wr := none,
      _hours_wr := none, _secdecWR := none, _elapsed_time := 0,
      _total_distance_m := none, _total_distance_dec := none, _total_distance_cm := 0,
      _stroke_duration := 0, _drive_duration := 0, _workout_builder := Workout.init,
      workout := none, _zone_builder := Zone.init, zone := none, tank_volume := none,
      WRValues_rst := zeroSnapshot, WRValues := zeroSnapshot,
      WRValues_standstill := zeroSnapshot, request_categories := initCategories }

/-- `RowerState.WRValuesStandstill`: refresh the standstill snapshot from the
live one with the four instantaneous quantities forced to zero. -/
def RowerState.WRValuesStandstill (s : RowerState) : RowerState :=
  { s with WRValues_standstill :=
      { s.WRValues with stroke_rate_pm := 0, instant_500m_pace_secs := 0,
                        speed_cmps := 0, instant_watts := 0 } }

/-- `RowerState._handle_total_distance`. -/
def RowerState._handle_total_distance (s : RowerState) (evt : S4Event) : RowerState :=
  { s with WRValues := { s.WRValues with total_distance_m := evt.value },
           _total_distance_m := evt.value }

/-- `RowerState._handle_total_distance_dec`.  (`self._total_distance_cm or 0`
is the identity here since the centimetre counter is a number from
`_zero_state` on.) -/
def RowerState._handle_total_distance_dec (s : RowerState) (evt : S4Event) : RowerState :=
  { s with _total_distance_dec := evt.value,
           _total_distance_cm :=
             max s._total_distance_cm ((s._total_distance_m.getD 0) * 100 + evt.value.getD 0) }

/-- `RowerState._compute_stroke_ratio`. -/
def RowerState._compute_stroke_ratio (s : RowerState) : RowerState :=
  if s._stroke_duration ≠ 0 ∧ s._drive_duration ≠ 0 then
    { s with WRValues :=
        { s.WRValues with stroke_ratio :=
            (pyRound2 (((s._stroke_duration : ℚ) - (s._drive_duration : ℚ)) /
              ((s._drive_duration : ℚ) * (5/4)))) } }
  else s

/-- `RowerState._handle_avg_time_stroke_whole`. -/
def RowerState._handle_avg_time_stroke_whole (s : RowerState) (evt : S4Event) : RowerState :=
  let duration_ms := evt.value.getD 0 * 25
  let s := { s with _stroke_duration := duration_ms }
  let s := { s with WRValues :=
      { s.WRValues with stroke_rate_pm :=
          (pyRound2 (if duration_ms ≠ 0 then 60000 / (duration_ms : ℚ) else 0)) } }
  RowerState._compute_stroke_ratio s

/-- `RowerState._handle_instant_avg_speed_cmps`.  The float expression
`2.80 / pow((100/speed), 3)` is modelled exactly over ℚ. -/
def RowerState._handle_instant_avg_speed_cmps (s : RowerState) (evt : S4Event) : RowerState :=
  let speed := evt.value
  if ¬ optTruthy speed then
    let upd := { s.WRValues with instant_500m_pace_secs := 0, speed_cmps := 0 }
    let upd := if USE_CONCEPT2_POWER then { upd with instant_watts := 0 } else upd
    { s with WRValues := upd }
  else
    let v := speed.getD 0
    let s := { s with WRValues := { s.WRValues with speed_cmps := v } }
    let s :=
      if ¬ optTruthy s._500m_pace then
        { s with WRValues :=
            { s.WRValues with instant_500m_pace_secs := pyRound (50000 / (v : ℚ)) } }
      else s
    let C2watts : Int := pyRound ((28/10 : ℚ) / ((100 / (v : ℚ)) ^ 3))
    let s := { s with _concept2_watts := (C2watts : ℚ) }
    if USE_CONCEPT2_POWER then
      { s with WRValues := { s.WRValues with instant_watts := C2watts } }
    else s

/-- The `while len(...) > NUM_STROKES_FOR_ROLLING_AVG_WATTS: pop(0)` loop:
drop elements from the front until at most four remain. -/
def trimStrokePowerFifo (l : List Nat) : List Nat :=
  l.drop (l.length - NUM_STROKES_FOR_ROLLING_AVG_WATTS)

/-- `RowerState._handle_watts`. -/
def RowerState._handle_watts (s : RowerState) (evt : S4Event) : RowerState :=
  let watts := evt.value
  let s := { s with _watts_event_value := watts }
  if s._drive_phase then
    { s with _stroke_max_power := max s._stroke_max_power (watts.getD 0) }
  else
    let s :=
      if s._stroke_max_power ≠ 0 then
        { s with _recent_strokes_max_power := s._recent_strokes_max_power ++ [s._stroke_max_power],
                 _stroke_max_power := 0 }
      else s
    let s := { s with _recent_strokes_max_power := trimStrokePowerFifo s._recent_strokes_max_power }
    if s._recent_strokes_max_power ≠ [] then
      let rolling_avg_watts : Int :=
        pyRound (((s._recent_strokes_max_power.sum : ℚ)) / (s._recent_strokes_max_power.length : ℚ))
      let s := { s with _rolling_avg_watts := rolling_avg_watts }
      if USE_CONCEPT2_POWER = false then
        { s with WRValues := { s.WRValues with instant_watts := rolling_avg_watts } }
      else s
    else s

/-- `RowerState._handle_500m_pace`. -/
def RowerState._handle_500m_pace (s : RowerState) (evt : S4Event) : RowerState :=
  let s := { s with _500m_pace := evt.value }
  if optTruthy evt.value then
    { s with WRValues := { s.WRValues with instant_500m_pace_secs := (evt.value.getD 0 : Int) } }
  else s

/-- `RowerState._compute_elapsed_time`.  `int(elapsed_time)` truncates; the
value is non-negative here, so truncation is the floor. -/
def RowerState._compute_elapsed_time (s : RowerState) : RowerState :=
  let compiled_time : ℚ :=
    (s._hours_wr.getD 0 : ℚ) * 3600 + (s._minutes_wr.getD 0 : ℚ) * 60 +
      (s._seconds_wr.getD 0 : ℚ) + (s._secdecWR.getD 0 : ℚ) / 10
  let elapsed_time := max s._elapsed_time compiled_time
  { s with _elapsed_time := elapsed_time,
           WRValues := { s.WRValues with elapsed_time_secs := Rat.floor elapsed_time } }

/-- `RowerState._handle_workout_flags`. -/
def RowerState._handle_workout_flags (s : RowerState) (evt : S4Event) : RowerState :=
  match evt.value with
  | none => s
  | some v =>
    let wres := Workout.update_if_flags_changed s._workout_builder v
    let s := { s with _workout_builder := wres.1 }
    let s :=
      if wres.2 then
        { s with workout := none,
                 request_categories :=
                   (setCategory (setCategory s.request_categories "workout" true) "distance" true) }
      else s
    let zres := Zone.update_type_if_flags_changed s._zone_builder v
    let s := { s with _zone_builder := zres.1 }
    if zres.2 then
      { s with zone := none,
               request_categories :=
                 (setCategory (setCategory s.request_categories "zone" true) "intensity" true) }
    else s

/-- `RowerState._handle_misc_disp_flags`.  (Dead in the dispatch table: the
`handlers` dict in `on_rower_event` lists the key `'misc_disp_flags'` twice
and the later `None` entry wins.) -/
def RowerState._handle_misc_disp_flags (s : RowerState) (evt : S4Event) : RowerState :=
  match evt.value with
  | none => s
  | some v =>
    let zres := Zone.reset_bounds_if_flags_changed s._zone_builder v
    let s := { s with _zone_builder := zres.1 }
    if zres.2 then
      { s with zone := none,
               request_categories :=
                 (setCategory (setCategory s.request_categories "zone" true) "intensity" true) }
    else s

/-- `RowerState._handle_workout_program`. -/
def RowerState._handle_workout_program (s : RowerState) (evt : S4Event) : RowerState :=
  let wb := Workout.update_from_event s._workout_builder evt
  let s := { s with _workout_builder := wb }
  if wb.is_valid then
    { s with request_categories :=
               (setCategory (setCategory s.request_categories "workout" false) "distance" false),
             workout := some wb }
  else s

/-- `RowerState._handle_zone_program`. -/
def RowerState._handle_zone_program (s : RowerState) (evt : S4Event) : RowerState :=
  let zb := Zone.update_from_event s._zone_builder evt
  let s := { s with _zone_builder := zb }
  if zb.is_valid then
    { s with request_categories :=
               (setCategory (setCategory s.request_categories "zone" false) "intensity" false),
             zone := some zb }
  else s

/-- `RowerState._handle_avg_time_stroke_pull`: the dict entry
`lambda evt: setattr(self, '_drive_duration', evt.value * 25) if evt.value is not None else None`. -/
def RowerState._handle_avg_time_stroke_pull (s : RowerState) (evt : S4Event) : RowerState :=
  match evt.value with
  | none => s
  | some v => { s with _drive_duration := v * 25 }

/-- A dict entry whose handler function is `None` (or only logs): dispatch
succeeds but the state is unchanged. -/
def noopHandler : RowerState → S4Event → RowerState := fun s _ => s

/-- The `handlers` dict of `RowerState.on_rower_event`, as a lookup from
event type to handler.  The source dict literal lists the key
`'misc_disp_flags'` twice — once with `_handle_misc_disp_flags` and later
with `None`; the later entry wins in a Python dict literal, so the type
dispatches to the log-only handler. -/
def handlerFor (t : String) : Option (RowerState → S4Event → RowerState) :=
  match t with
  | "error" => some noopHandler
  | "screen_sub_mode" => some noopHandler
  | "screen_mode" => some noopHandler
  | "intervals_remaining" => some noopHandler
  | "function_flags" => some noopHandler
  | "misc_disp_flags" => some noopHandler
  | "reset" => some (fun s _ => RowerState._zero_state s)
  | "stroke_start" => some (fun s _ => { s with _drive_phase := true })
  | "stroke_end" => some (fun s _ => { s with _drive_phase := false })
  | "workout_flags" => some RowerState._handle_workout_flags
  | "intensity2_disp_flags" => some RowerState._handle_zone_program
  | "distance1_disp_flags" => some RowerState._handle_workout_program
  | "distance2_disp_flags" => some noopHandler
  | "program_disp_flags" => some noopHandler
  | "total_distance" => some RowerState._handle_total_distance
  | "total_distance_dec" => some RowerState._handle_total_distance_dec
  | "watts" => some RowerState._handle_watts
  | "total_calories" =>
    some (fun s e => { s with WRValues := { s.WRValues with total_calories := e.value } })
  | "zone_hr_upper" => some RowerState._handle_zone_program
  | "zone_hr_lower" => some RowerState._handle_zone_program
  | "zone_int_mps_upper" => some RowerState._handle_zone_program
  | "zone_int_mps_lower" => some RowerState._handle_zone_program
  | "zone_int_mph_upper" => some RowerState._handle_zone_program
  | "zone_int_mph_lower" => some RowerState._handle_zone_program
  | "zone_int_500m_upper" => some RowerState._handle_zone_program
  | "zone_int_500m_lower" => some RowerState._handle_zone_program
  | "zone_int_2km_upper" => some RowerState._handle_zone_program
  | "zone_int_2km_lower" => some RowerState._handle_zone_program
  | "zone_sr_upper" => some RowerState._handle_zone_program
  | "zone_sr_lower" => some RowerState._handle_zone_program
  | "tank_volume" => some (fun s e => { s with tank_volume := e.value })
  | "stroke_count" =>
    some (fun s e => { s with WRValues := { s.WRValues with stroke_count := e.value } })
  | "avg_time_stroke_whole" => some RowerState._handle_avg_time_stroke_whole
  | "avg_time_stroke_pull" => some RowerState._handle_avg_time_stroke_pull
  | "instant_avg_speed_cmps" => some RowerState._handle_instant_avg_speed_cmps
  | "heart_rate" =>
    some (fun s e => { s with WRValues := { s.WRValues with heart_rate_bpm := e.value } })
  | "500m_pace" => some RowerState._handle_500m_pace
  | "display_sec" => some (fun s e => { s with _seconds_wr := e.value })
  | "display_min" => some (fun s e => { s with _minutes_wr := e.value })
  | "display_hr" => some (fun s e => { s with _hours_wr := e.value })
  | "display_sec_dec" => some (fun s e => { s with _secdecWR := e.value })
  | "workout_total_time" => some noopHandler
  | "workout_total_metres" => some noopHandler
  | "workout_total_strokes" => some noopHandler
  | "workout_work1" => some RowerState._handle_workout_program
  | "workout_rest1" => some RowerState._handle_workout_program
  | "workout_work2" => some RowerState._handle_workout_program
  | "workout_rest2" => some RowerState._handle_workout_program
  | "workout_work3" => some RowerState._handle_workout_program
  | "workout_rest3" => some RowerState._handle_workout_program
  | "workout_work4" => some RowerState._handle_workout_program
  | "workout_rest4" => some RowerState._handle_workout_program
  | "workout_work5" => some RowerState._handle_workout_program
  | "workout_rest5" => some RowerState._handle_workout_program
  | "workout_work6" => some RowerState._handle_workout_program
  | "workout_rest6" => some RowerState._handle_workout_program
  | "workout_work7" => some RowerState._handle_workout_program
  | "workout_rest7" => some RowerState._handle_workout_program
  | "workout_work8" => some RowerState._handle_workout_program
  | "workout_rest8" => some RowerState._handle_workout_program
  | "workout_work9" => some RowerState._handle_workout_program
  | "workout_intervals" => some RowerState._handle_workout_program
  | _ => none

/-- `RowerState.on_rower_event`: skip ignored types, dispatch through the
handlers dict (an unhandled type is logged and dropped), then recompute the
elapsed time on `display_sec_dec`. -/
def RowerState.on_rower_event (s : RowerState) (e : S4Event) : RowerState :=
  if e.type ∈ IGNORE_LIST then s
  else
    match handlerFor e.type with
    | none => s
    | some h =>
      let s := h s e
      if e.type = "display_sec_dec" then RowerState._compute_elapsed_time s else s

/-- `RowerState.pulse_monitor`.  `now` is the wall-clock millisecond value
`int(round(time.time() * 1000))`; `pulse_gap` is infinite while
`_pulse_event_time` is falsy (zero). -/
def RowerState.pulse_monitor (s : RowerState) (event : S4Event) (now : Nat) : RowerState :=
  let s := { s with _last_check_for_pulse := now }
  let s := if event.type = "pulse" then { s with _pulse_event_time := event.at_ms } else s
  let gap_small : Bool :=
    s._pulse_event_time ≠ 0 ∧
      ((now : Int) - (s._pulse_event_time : Int) ≤ (NO_ROWING_PULSE_GAP : Int))
  let s :=
    if gap_small then { s with _paddle_turning := true }
    else
      RowerState.WRValuesStandstill
        { s with _paddle_turning := false, _drive_phase := false,
                 _recent_strokes_max_power := [] }
  { s with WRValues := { s.WRValues with paddle_turning := s._paddle_turning } }

/-- `RowerState.get_WRValues`.  In the source the standstill branch is
commented out (both lines carry the marker `#tk undo`) and there is no
reset branch at all, so both branches return the live dict:

    if self._paddle_turning:
        values = deepcopy(self.WRValues)
    else:
        #values = deepcopy(self.WRValues_standstill)    #tk undo
        values = deepcopy(self.WRValues)                #tk undo
-/
def RowerState.get_WRValues (s : RowerState) : WRSnapshot :=
  if s._paddle_turning then s.WRValues
  else s.WRValues

/-- Feed one parsed event to the two callbacks registered by
`RowerState.initialise`, in registration order: `pulse_monitor`, then
`on_rower_event`.  The pair carries the event and the wall-clock value read
by the pulse monitor while processing it. -/
def processEvent (s : RowerState) (p : S4Event × Nat) : RowerState :=
  RowerState.on_rower_event (RowerState.pulse_monitor s p.1 p.2) p.1

/-- Run the aggregator from its initialised state over a list of timed
events. -/
def run (ps : List (S4Event × Nat)) : RowerState :=
  ps.foldl processEvent initState

/-!
## Trace observations and specification predicates
-/

/-- The timed events of kind `pulse` in a trace. -/
def pulseEvents (ps : List (S4Event × Nat)) : List (S4Event × Nat) :=
  ps.filter (fun p => p.1.type == "pulse")

/-- Parse-time timestamp of the last pulse event of a trace, if any. -/
def lastPulseAt (ps : List (S4Event × Nat)) : Option Nat :=
  ((pulseEvents ps).getLast?).map (fun p => p.1.at_ms)

/-- Wall-clock time at which the last event of a trace was processed. -/
def lastProcessedAt (ps : List (S4Event × Nat)) : Option Nat :=
  (ps.getLast?).map (fun p => p.2)

/-- The two pulse-monitor fields that `on_rower_event` must not disturb for
non-reset events. -/
def preservesPulseFields (f : RowerState → S4Event → RowerState) : Prop :=
  ∀ s e, (f s e)._pulse_event_time = s._pulse_event_time ∧
    (f s e)._paddle_turning = s._paddle_turning

/-- The claim's reading of `Workout.is_valid`, modelled from the claim text:
kind and units are consistent, and the number of work targets plus rest
durations equals the interval count, where non-interval forms require
exactly one work target and no rest durations. -/
def workoutClaimValid (w : Workout) : Prop :=
  (w.type ≠ none ∧ w.units ≠ none ∧
    (w.type = some "duration" → w.units = some "secs") ∧
    (w.type = some "distance" →
      (w.units = some "metres" ∨ w.units = some "strokes" ∨ w.units = some "miles" ∨
        w.units = some "km"))) ∧
  (if w.intervals_set = some true then
    w.intervals = some (w.work_targets.length + w.rest_durations.length)
   else w.work_targets.length = 1 ∧ w.rest_durations.length = 0)

/-- The condition `Workout.is_valid` actually decides (the amended claim):
type and units are set and consistent; for the interval form the captured
interval count is nonzero and equals the number of work plus rest legs; for
the non-interval form exactly one work target exists, with no requirement on
rest durations. -/
def workoutValidSpec (w : Workout) : Prop :=
  w.type ≠ none ∧ w.units ≠ none ∧
  (w.type = some "duration" → w.units = some "secs") ∧
  (w.type = some "distance" →
    (w.units = some "metres" ∨ w.units = some "strokes" ∨ w.units = some "miles" ∨
      w.units = some "km")) ∧
  ((w.intervals_set = some true ∧
      (∃ n, w.intervals = some n ∧ 0 < n ∧ w.work_targets.length + w.rest_durations.length = n)) ∨
    (w.intervals_set ≠ some true ∧ ¬(w.intervals_set = none ∧ w.intervals = none) ∧
      w.work_targets.length = 1))

/-- Uppercase hex digit character for a value below 16. -/
def hexDigitChar (k : Nat) : Char :=
  if k < 10 then Char.ofNat (48 + k) else Char.ofNat (55 + k)

/-- Two-character uppercase hex rendering of a byte. -/
def toHex2 (n : Nat) : List Char :=
  [hexDigitChar (n / 16), hexDigitChar (n % 16)]

/-!
## Concrete inputs used by the claim theorems
-/

/-- A single speed reading with no pulse events: afterwards the paddle is
not turning while the live and standstill snapshots differ. -/
def C1_events : List (S4Event × Nat) :=
  [({ type := "instant_avg_speed_cmps", value := some 250, at_ms := 1000 }, 1000)]

/-- A keypad reset followed by a memory read of the total distance, with no
pulse event in between. -/
def C2_events : List (S4Event × Nat) :=
  [({ type := "reset", at_ms := 1000 }, 1000),
   ({ type := "total_distance", value := some 5, at_ms := 1100 }, 1100)]

/-- A `watts` event with the given value at the given time. -/
def wattsEv (v t : Nat) : S4Event × Nat := ({ type := "watts", value := some v, at_ms := t }, t)

/-- A `stroke_start` (`SS`) event at the given time. -/
def ssEv (t : Nat) : S4Event × Nat := ({ type := "stroke_start", at_ms := t }, t)

/-- A `stroke_end` (`SE`) event at the given time. -/
def seEv (t : Nat) : S4Event × Nat := ({ type := "stroke_end", at_ms := t }, t)

/-- Scenario C of the specification: `SS`, watts 200, watts 300, `SE`, `SS`,
watts 500, `SE`, `SS`, watts 400, `SE`, `SS`, watts 100, `SE`. -/
def C3_events : List (S4Event × Nat) :=
  [ ssEv 1000, wattsEv 200 1100, wattsEv 300 1200, seEv 1300,
    ssEv 1400, wattsEv 500 1500, seEv 1600,
    ssEv 1700, wattsEv 400 1800, seEv 1900,
    ssEv 2000, wattsEv 100 2100, seEv 2200 ]

/-- Scenario A of the specification, as protocol frames (a double register
carries four hex digits, so the distance readings 138 and 139 are the lines
`IDD055008A` and `IDD055008B`; the dec readings 95 and 0 are `IDS0545F` and
`IDS05400`).  Each line is decoded by `read_reply` and fed to the
aggregator. -/
def C4_events : List (S4Event × Nat) :=
  ([("IDS0545F", 1000), ("IDD055008A", 1100), ("IDS05400", 1200), ("IDD055008B", 1300)]
    : List (String × Nat)).filterMap
    (fun p => (read_reply p.1.toList p.2).map (fun e => (e, p.2)))

/-- A workout builder reached by flag decoding and leg events: a non-interval
distance workout in metres with one work target and one rest duration. -/
def C5_workout : Workout :=
  let w := (Workout.update_if_flags_changed Workout.init 16).1
  let w := Workout.update_from_event w { type := "distance1_disp_flags", value := some 6 }
  let w := Workout.update_from_event w { type := "workout_work1", value := some 100 }
  Workout.update_from_event w { type := "workout_rest1", value := some 60 }

/-- A workout builder in which `is_valid` holds: distance workout in metres
with exactly one work target. -/
def C5_workout_valid : Workout :=
  let w := (Workout.update_if_flags_changed Workout.init 16).1
  let w := Workout.update_from_event w { type := "distance1_disp_flags", value := some 6 }
  Workout.update_from_event w { type := "workout_work1", value := some 100 }

/-- A zone builder with an active heart-rate zone, stored trigger flags `1`,
and one populated bound. -/
def C6_zone : Zone :=
  let z := (Zone.update_type_if_flags_changed Zone.init 1).1
  let z := (Zone.reset_bounds_if_flags_changed z 1).1
  Zone.update_from_event z { type := "zone_hr_upper", value := some 180 }

/-- A pulse, then a keypad reset 100 ms later. -/
def C7cex_events : List (S4Event × Nat) :=
  [({ type := "pulse", at_ms := 1000 }, 1000), ({ type := "reset", at_ms := 1100 }, 1100)]

/-- A pulse, then a ping 200 ms later (no reset). -/
def C7wit_events : List (S4Event × Nat) :=
  [({ type := "pulse", at_ms := 1000 }, 1000), ({ type := "ping", at_ms := 1200 }, 1200)]

/-- A total-distance reading of 138 m. -/
def C8wit_trace : List (S4Event × Nat) :=
  [({ type := "total_distance", value := some 138, at_ms := 1000 }, 1000)]

/-- A total-distance-dec reading of 95 cm. -/
def C8wit_event : S4Event × Nat :=
  ({ type := "total_distance_dec", value := some 95, at_ms := 1100 }, 1100)

/-!
## Helper lemmas: codec
-/

theorem digitVal_hexDigitChar : ∀ k < 16, digitVal 16 (hexDigitChar k) = some k := by decide

theorem toHex2_length (n : Nat) : (toHex2 n).length = 2 := rfl

theorem parseIntStr_toHex2 (n : Nat) (h : n < 256) :
    parseIntStr 16 (toHex2 n) = some n := by
  have h1 : n / 16 < 16 := by omega
  have h2 : n % 16 < 16 := by omega
  simp [toHex2, parseIntStr, digitVal_hexDigitChar _ h1, digitVal_hexDigitChar _ h2]
  omega

theorem parseIntStr_toHex2_pair (hi lo : Nat) (h1 : hi < 256) (h2 : lo < 256) :
    parseIntStr 16 (toHex2 hi ++ toHex2 lo) = some (256 * hi + lo) := by
  have a1 : hi / 16 < 16 := by omega
  have a2 : hi % 16 < 16 := by omega
  have a3 : lo / 16 < 16 := by omega
  have a4 : lo % 16 < 16 := by omega
  simp [toHex2, parseIntStr, digitVal_hexDigitChar _ a1, digitVal_hexDigitChar _ a2,
    digitVal_hexDigitChar _ a3, digitVal_hexDigitChar _ a4]
  omega

theorem memoryMapKeys_nodup : (MEMORY_MAP.map (fun e => e.1.toList)).Nodup := by decide

theorem memoryMap_little_facts :
    ∀ e ∈ MEMORY_MAP, e.2.endian = Endian.little →
      e.2.size = MSize.double ∧ e.2.base = 16 ∧ e.1.toList.length = 3 := by decide

theorem find_of_mem_nodup (l : List (String × MemoryField)) (k : String) (f : MemoryField)
    (hmem : (k, f) ∈ l) (hnd : (l.map (fun e => e.1.toList)).Nodup) :
    l.find? (fun e => e.1.toList == k.toList) = some (k, f) := by
  induction l with
  | nil => cases hmem
  | cons hd tl ih =>
    have hnd' := List.nodup_cons.mp hnd
    rcases List.mem_cons.mp hmem with heq | htl
    · subst heq
      simp [List.find?]
    · have hne : (hd.1.toList == k.toList) = false := by
        apply beq_false_of_ne
        intro hteq
        apply hnd'.1
        rw [show (fun (e : String × MemoryField) => e.1.toList) hd = k.toList from hteq]
        exact List.mem_map.mpr ⟨(k, f), htl, rfl⟩
      simp only [List.find?_cons, hne, cond_false]
      exact ih htl hnd'.2

theorem mmLookup_of_mem (k : String) (f : MemoryField) (hmem : (k, f) ∈ MEMORY_MAP) :
    mmLookup k.toList = some f := by
  unfold mmLookup
  rw [find_of_mem_nodup MEMORY_MAP k f hmem memoryMapKeys_nodup]
  rfl

theorem lor_shiftLeft8_eq (lo hi : Nat) (h : hi < 256) : lo <<< 8 ||| hi = 256 * lo + hi := by
  have h256 : (256 : Nat) = 2 ^ 8 := by norm_num
  have h1 : lo <<< 8 = 2 ^ 8 * lo := by rw [Nat.shiftLeft_eq]; ring
  have h' : hi < 2 ^ 8 := by omega
  rw [h1, h256]
  apply Nat.eq_of_testBit_eq
  intro j
  rw [Nat.testBit_lor, Nat.testBit_mul_pow_two, Nat.testBit_mul_pow_two_add _ h' j]
  rcases Nat.lt_or_ge j 8 with hj | hj
  · simp [hj, Nat.not_le.mpr hj]
  · have hnj : ¬ j < 8 := Nat.not_lt.mpr hj
    have hbit : hi.testBit j = false := Nat.testBit_lt_two_pow (by
      calc hi < 2 ^ 8 := h'
      _ ≤ 2 ^ j := Nat.pow_le_pow_right (by norm_num) hj)
    simp [hnj, hj, hbit]

/-!
## Helper lemmas: the pulse-monitor fields under `on_rower_event`
-/

theorem noop_pp : preservesPulseFields noopHandler := by
  intro s e; exact ⟨rfl, rfl⟩

theorem workout_flags_pp : preservesPulseFields RowerState._handle_workout_flags := by
  intro s e
  unfold RowerState._handle_workout_flags
  try dsimp only
  repeat' split <;> try exact ⟨rfl, rfl⟩

theorem workout_program_pp : preservesPulseFields RowerState._handle_workout_program := by
  intro s e
  unfold RowerState._handle_workout_program
  try dsimp only
  repeat' split <;> try exact ⟨rfl, rfl⟩

theorem zone_program_pp : preservesPulseFields RowerState._handle_zone_program := by
  intro s e
  unfold RowerState._handle_zone_program
  try dsimp only
  repeat' split <;> try exact ⟨rfl, rfl⟩

theorem total_distance_pp : preservesPulseFields RowerState._handle_total_distance := by
  intro s e; exact ⟨rfl, rfl⟩

theorem total_distance_dec_pp : preservesPulseFields RowerState._handle_total_distance_dec := by
  intro s e; exact ⟨rfl, rfl⟩

theorem watts_pp : preservesPulseFields RowerState._handle_watts := by
  intro s e
  unfold RowerState._handle_watts
  try dsimp only
  repeat' split <;> try exact ⟨rfl, rfl⟩

theorem avg_time_stroke_whole_pp : preservesPulseFields RowerState._handle_avg_time_stroke_whole := by
  intro s e
  unfold RowerState._handle_avg_time_stroke_whole RowerState._compute_stroke_ratio
  try dsimp only
  repeat' split <;> try exact ⟨rfl, rfl⟩

theorem avg_time_stroke_pull_pp : preservesPulseFields RowerState._handle_avg_time_stroke_pull := by
  intro s e
  unfold RowerState._handle_avg_time_stroke_pull
  try dsimp only
  repeat' split <;> try exact ⟨rfl, rfl⟩

theorem speed_pp : preservesPulseFields RowerState._handle_instant_avg_speed_cmps := by
  intro s e
  unfold RowerState._handle_instant_avg_speed_cmps
  try dsimp only
  repeat' split <;> try exact ⟨rfl, rfl⟩

theorem pace_pp : preservesPulseFields RowerState._handle_500m_pace := by
  intro s e
  unfold RowerState._handle_500m_pace
  try dsimp only
  repeat' split <;> try exact ⟨rfl, rfl⟩

theorem elapsed_pp (s : RowerState) :
    (RowerState._compute_elapsed_time s)._pulse_event_time = s._pulse_event_time ∧
    (RowerState._compute_elapsed_time s)._paddle_turning = s._paddle_turning := ⟨rfl, rfl⟩

set_option maxHeartbeats 2000000 in
theorem handlerFor_pp (t : String) (f : RowerState → S4Event → RowerState)
    (hf : handlerFor t = some f) (ht : t ≠ "reset") : preservesPulseFields f := by
  unfold handlerFor at hf
  split at hf <;>
    first
      | exact absurd rfl ht
      | exact Option.noConfusion hf
      | (injection hf with hfe; subst hfe; exact noop_pp)
      | (injection hf with hfe; subst hfe; exact workout_flags_pp)
      | (injection hf with hfe; subst hfe; exact workout_program_pp)
      | (injection hf with hfe; subst hfe; exact zone_program_pp)
      | (injection hf with hfe; subst hfe; exact total_distance_pp)
      | (injection hf with hfe; subst hfe; exact total_distance_dec_pp)
      | (injection hf with hfe; subst hfe; exact watts_pp)
      | (injection hf with hfe; subst hfe; exact avg_time_stroke_whole_pp)
      | (injection hf with hfe; subst hfe; exact avg_time_stroke_pull_pp)
      | (injection hf with hfe; subst hfe; exact speed_pp)
      | (injection hf with hfe; subst hfe; exact pace_pp)
      | (injection hf with hfe; subst hfe; intro s e; exact ⟨rfl, rfl⟩)

theorem on_rower_event_pp (s : RowerState) (e : S4Event) (h : e.type ≠ "reset") :
    (RowerState.on_rower_event s e)._pulse_event_time = s._pulse_event_time ∧
    (RowerState.on_rower_event s e)._paddle_turning = s._paddle_turning := by
  unfold RowerState.on_rower_event
  split
  · exact ⟨rfl, rfl⟩
  · rcases hh : handlerFor e.type with _ | f
    · simp [hh]
    · have hp := handlerFor_pp e.type f hh h s e
      simp only [hh]
      split
      · exact ⟨(elapsed_pp _).1.trans hp.1, (elapsed_pp _).2.trans hp.2⟩
      · exact hp

/-!
## Helper lemmas: the pulse monitor and trace observations
-/

theorem pulse_monitor_time (s : RowerState) (e : S4Event) (now : Nat) :
    (RowerState.pulse_monitor s e now)._pulse_event_time =
      (if e.type = "pulse" then e.at_ms else s._pulse_event_time) := by
  unfold RowerState.pulse_monitor RowerState.WRValuesStandstill
  try dsimp only
  (repeat' split) <;> rfl

theorem pulse_monitor_paddle (s : RowerState) (e : S4Event) (now : Nat) :
    ((RowerState.pulse_monitor s e now)._paddle_turning = true ↔
      ((RowerState.pulse_monitor s e now)._pulse_event_time ≠ 0 ∧
        (now : Int) - ((RowerState.pulse_monitor s e now)._pulse_event_time : Int) ≤
          (NO_ROWING_PULSE_GAP : Int))) := by
  rw [pulse_monitor_time]
  unfold RowerState.pulse_monitor RowerState.WRValuesStandstill
  try dsimp only
  (repeat' split) <;> simp_all

theorem pulse_monitor_cm (s : RowerState) (e : S4Event) (now : Nat) :
    (RowerState.pulse_monitor s e now)._total_distance_cm = s._total_distance_cm := by
  unfold RowerState.pulse_monitor RowerState.WRValuesStandstill
  try dsimp only
  (repeat' split) <;> rfl

theorem lastPulseAt_append_pulse (ps : List (S4Event × Nat)) (p : S4Event × Nat)
    (hp : p.1.type = "pulse") : lastPulseAt (ps ++ [p]) = some p.1.at_ms := by
  unfold lastPulseAt pulseEvents
  rw [List.filter_append]
  simp [List.filter, hp]

theorem lastPulseAt_append_other (ps : List (S4Event × Nat)) (p : S4Event × Nat)
    (hp : p.1.type ≠ "pulse") : lastPulseAt (ps ++ [p]) = lastPulseAt ps := by
  unfold lastPulseAt pulseEvents
  rw [List.filter_append]
  have hb : (p.1.type == "pulse") = false := beq_eq_false_iff_ne.mpr hp
  simp [List.filter, hb]

theorem run_append (ps : List (S4Event × Nat)) (p : S4Event × Nat) :
    run (ps ++ [p]) = processEvent (run ps) p := by
  unfold run
  simp

theorem run_pulse_invariant (ps : List (S4Event × Nat))
    (hres : ∀ p ∈ ps, p.1.type ≠ "reset") :
    (run ps)._pulse_event_time = (lastPulseAt ps).getD 0 ∧
    ((run ps)._paddle_turning = true ↔
      (∃ n, lastProcessedAt ps = some n ∧ (lastPulseAt ps).getD 0 ≠ 0 ∧
        (n : Int) - ((lastPulseAt ps).getD 0 : Int) ≤ (NO_ROWING_PULSE_GAP : Int))) := by
  induction ps using List.reverseRecOn with
  | nil =>
    constructor
    · rfl
    · constructor
      · intro h; cases h
      · rintro ⟨n, hn, _⟩; cases hn
  | append_singleton ps p ih =>
    have hres' : ∀ q ∈ ps, q.1.type ≠ "reset" := fun q hq => hres q (List.mem_append_left _ hq)
    have hp : p.1.type ≠ "reset" := hres p (List.mem_append_right _ (List.mem_singleton.mpr rfl))
    obtain ⟨iht, ihp⟩ := ih hres'
    rw [run_append]
    unfold processEvent
    obtain ⟨et, ep⟩ := on_rower_event_pp (RowerState.pulse_monitor (run ps) p.1 p.2) p.1 hp
    have hlp : lastProcessedAt (ps ++ [p]) = some p.2 := by
      unfold lastProcessedAt
      rw [List.getLast?_concat]
      rfl
    by_cases hpu : p.1.type = "pulse"
    · have hlpa := lastPulseAt_append_pulse ps p hpu
      constructor
      · rw [et, pulse_monitor_time, if_pos hpu, hlpa]
        rfl
      · rw [ep, pulse_monitor_paddle, pulse_monitor_time, if_pos hpu, hlpa, hlp]
        constructor
        · rintro ⟨h1, h2⟩
          exact ⟨p.2, rfl, by simpa using h1, by simpa using h2⟩
        · rintro ⟨n, hn, h1, h2⟩
          injection hn with hn
          subst hn
          exact ⟨by simpa using h1, by simpa using h2⟩
    · have hlpa := lastPulseAt_append_other ps p hpu
      constructor
      · rw [et, pulse_monitor_time, if_neg hpu, iht, hlpa]
      · rw [ep, pulse_monitor_paddle, pulse_monitor_time, if_neg hpu, iht, hlpa, hlp]
        constructor
        · rintro ⟨h1, h2⟩
          exact ⟨p.2, rfl, h1, h2⟩
        · rintro ⟨n, hn, h1, h2⟩
          injection hn with hn
          subst hn
          exact ⟨h1, h2⟩

theorem on_rower_event_cm_mono (s : RowerState) (e : S4Event)
    (h : e.type = "total_distance" ∨ e.type = "total_distance_dec") :
    s._total_distance_cm ≤ (RowerState.on_rower_event s e)._total_distance_cm := by
  unfold RowerState.on_rower_event
  rcases h with h | h <;> rw [h]
  · rw [if_neg (by decide)]
    show s._total_distance_cm ≤ (RowerState._handle_total_distance s e)._total_distance_cm
    exact Nat.le_refl _
  · rw [if_neg (by decide)]
    show s._total_distance_cm ≤ (RowerState._handle_total_distance_dec s e)._total_distance_cm
    exact Nat.le_max_left _ _

/-!
## Helper lemmas: the `Workout` builder
-/

theorem valid_tail_iff (iset : Option Bool) (iv : Option Nat) (wlen rlen : Nat) :
    ((if iset = none ∧ iv = none then false
      else if iset = some true then
        match iv with
        | none => false
        | some n =>
          if n = 0 then false
          else if wlen + rlen > n then false
          else decide (wlen + rlen = n)
      else decide (wlen = 1)) = true
    ↔ ((iset = some true ∧ (∃ n, iv = some n ∧ 0 < n ∧ wlen + rlen = n)) ∨
       (iset ≠ some true ∧ ¬(iset = none ∧ iv = none) ∧ wlen = 1))) := by
  rcases iset with _ | b
  · rcases iv with _ | n <;> simp
  · cases b <;> rcases iv with _ | n <;> simp <;> omega

theorem update_from_event_intervals (w : Workout) (e : S4Event) :
    (Workout.update_from_event w e).intervals = w.intervals ∧
    (Workout.update_from_event w e).intervals_set = w.intervals_set := by
  unfold Workout.update_from_event
  try dsimp only
  repeat' split <;> try exact ⟨rfl, rfl⟩

theorem foldl_update_intervals (evts : List S4Event) (w : Workout) :
    (evts.foldl Workout.update_from_event w).intervals = w.intervals ∧
    (evts.foldl Workout.update_from_event w).intervals_set = w.intervals_set := by
  induction evts generalizing w with
  | nil => exact ⟨rfl, rfl⟩
  | cons e es ih =>
    simp only [List.foldl_cons]
    obtain ⟨h1, h2⟩ := update_from_event_intervals w e
    obtain ⟨h3, h4⟩ := ih (Workout.update_from_event w e)
    exact ⟨h3.trans h1, h4.trans h2⟩

theorem is_valid_false_of_interval_unset (w : Workout) (h1 : w.intervals = none)
    (h2 : w.intervals_set = some true) : w.is_valid = false := by
  unfold Workout.is_valid
  rcases ht : w.type with _ | t
  · rfl
  rcases hu : w.units with _ | u
  · rfl
  simp only [ht, hu]
  split_ifs <;> simp_all

theorem interval_implies_workout_set (flags : Nat)
    (h : WorkoutMode.is_interval flags = true) : WorkoutMode.has_workout_set flags = true := by
  unfold WorkoutMode.is_interval at h
  unfold WorkoutMode.has_workout_set
  have h192 : WorkoutMode.WORKOUT_DURATION_INTERVAL ||| WorkoutMode.WORKOUT_DISTANCE_INTERVAL =
      192 := by decide
  have h240 : WorkoutMode.WORKOUT_MASK = 240 := by decide
  rw [h192] at h
  rw [h240]
  simp only [ne_eq, decide_eq_true_eq] at h ⊢
  intro h0
  apply h
  have hassoc : flags &&& 192 = flags &&& 240 &&& 192 := by
    rw [Nat.and_assoc, show (240 : Nat) &&& 192 = 192 from by decide]
  rw [hassoc, h0]
  decide

theorem update_flags_go_interval (flags : Nat) (h : WorkoutMode.is_interval flags = true) :
    (Workout.update_flags_go flags).1.intervals = none ∧
    (Workout.update_flags_go flags).1.intervals_set = some true := by
  unfold Workout.update_flags_go
  simp only [interval_implies_workout_set flags h, h, if_true]
  refine ⟨?_, ?_⟩ <;> ((repeat' split) <;> first | rfl | trivial)

theorem update_if_flags_changed_of_changed (w : Workout) (flags : Nat)
    (h : (Workout.update_if_flags_changed w flags).2 = true) :
    Workout.update_if_flags_changed w flags = Workout.update_flags_go flags := by
  unfold Workout.update_if_flags_changed at h ⊢
  split at h
  · split at h
    · simp at h
    · rename_i hnc
      rw [if_neg hnc]
  · rfl

/-!
## Claim theorems
-/

/-- C1: the claim states that `get_WRValues` returns the zeroed snapshot when
a reset is pending, the live snapshot while the paddle is turning, and the
standstill snapshot otherwise.  In the code both branches of `get_WRValues`
return the live dict (the standstill line is commented out with the marker
`#tk undo`, and no reset branch exists), so after a single speed reading
with the paddle not turning the reader returns the live snapshot — with
`speed_cmps = 250` — instead of the standstill snapshot, whose
`speed_cmps` is 0. -/
theorem C1_get_WRValues_ignores_selection_rule :
    (run C1_events)._paddle_turning = false ∧
    RowerState.get_WRValues (run C1_events) = (run C1_events).WRValues ∧
    (run C1_events).WRValues.speed_cmps = 250 ∧
    (run C1_events).WRValues_standstill.speed_cmps = 0 ∧
    RowerState.get_WRValues (run C1_events) ≠ (run C1_events).WRValues_standstill := by
  with_unfolding_all decide

/-- C2: the claim states that every read between a `reset` event and the
next `pulse` event returns an all-zero snapshot.  In the code a memory read
arriving after the reset (here `total_distance = 5`) is written straight
into the live dict and `get_WRValues` returns it, although no pulse has
been processed: the published snapshot is not zeroed. -/
theorem C2_snapshot_not_zeroed_after_reset :
    pulseEvents C2_events = [] ∧
    (RowerState.get_WRValues (run C2_events)).total_distance_m = some 5 ∧
    (run C2_events).WRValues_rst.total_distance_m = some 0 := by
  with_unfolding_all decide

/-- C3 (counterexample): after the scenario-C event sequence the live
snapshot's `instant_watts` is not 325 as the claim expects. -/
theorem C3_scenario_watts_not_325 :
    (run C3_events).WRValues.instant_watts ≠ 325 := by
  with_unfolding_all decide

/-- C3 (amended): after the scenario-C sequence `instant_watts` equals 0:
every watts event of the scenario arrives during the drive phase, so no
per-stroke maximum is ever flushed into the rolling-average FIFO — and with
no pulse events the pulse monitor clears the drive flag and the FIFO on
every event anyway, so the FIFO stays empty. -/
theorem C3_scenario_watts_zero :
    (run C3_events).WRValues.instant_watts = 0 ∧
    (run C3_events)._recent_strokes_max_power = [] := by
  with_unfolding_all decide

/-- C4 (counterexample): after the scenario-A lines the internal
total-distance centimetre counter is not 13900 as the claim expects. -/
theorem C4_scenario_A_cm_not_13900 :
    (run C4_events)._total_distance_cm ≠ 13900 := by
  with_unfolding_all decide

/-- C4 (amended): after the scenario-A lines the snapshot reads
`total_distance_m = 139` and the centimetre counter reads 13800: each
`total_distance_dec` event is combined with the metre value stored by the
*previous* `total_distance` event, so the candidates are `0·100+95 = 95`
and `138·100+0 = 13800`, and the counter holds their maximum. -/
theorem C4_scenario_A_results :
    (run C4_events).WRValues.total_distance_m = some 139 ∧
    (run C4_events)._total_distance_cm = 13800 := by
  with_unfolding_all decide

/-- C5 (counterexample): a builder describing a non-interval distance
workout in metres with one work target *and one rest duration* is accepted
by `is_valid`, but the claim requires non-interval forms to have no rest
durations. -/
theorem C5_is_valid_accepts_rest_durations :
    C5_workout.is_valid = true ∧ C5_workout.rest_durations.length = 1 ∧
    ¬ workoutClaimValid C5_workout := by
  refine ⟨by decide, by decide, ?_⟩
  rintro ⟨-, htail⟩
  have hset : C5_workout.intervals_set = some false := by decide
  rw [if_neg (by rw [hset]; simp)] at htail
  have : C5_workout.rest_durations.length = 0 := htail.2
  simp [show C5_workout.rest_durations.length = 1 from by decide] at this

/-- C5 (amended): `Workout.is_valid` returns true iff the type and units are
set and consistent (duration ⇒ secs; distance ⇒ metres/strokes/miles/km),
and either the interval flag is true with a captured nonzero interval count
equal to the number of work plus rest legs, or the interval flag is not true
(with at least one of flag/count captured) and exactly one work target
exists — rest durations are not constrained in the non-interval form. -/
theorem C5_is_valid_characterisation (w : Workout) :
    w.is_valid = true ↔ workoutValidSpec w := by
  unfold Workout.is_valid workoutValidSpec
  rcases ht : w.type with _ | t
  · simp [ht]
  rcases hu : w.units with _ | u
  · simp [hu]
  simp only [ht, hu]
  by_cases h1 : t = "duration" ∧ u ≠ "secs"
  · rw [if_pos h1]
    simp only [Bool.false_eq_true, false_iff]
    rintro ⟨-, -, hd, -, -⟩
    have := hd (by rw [h1.1])
    injection this with this
    exact h1.2 this
  · rw [if_neg h1]
    by_cases h2 : t = "distance" ∧ u ∉ ["metres", "strokes", "miles", "km"]
    · rw [if_pos h2]
      simp only [Bool.false_eq_true, false_iff]
      rintro ⟨-, -, -, hdist, -⟩
      have := hdist (by rw [h2.1])
      rcases h2 with ⟨-, h2b⟩
      simp only [Option.some.injEq] at this
      apply h2b
      simp only [List.mem_cons, List.mem_singleton]
      tauto
    · rw [if_neg h2]
      rw [valid_tail_iff]
      constructor
      · intro htail
        refine ⟨by simp, by simp, ?_, ?_, htail⟩
        · intro hd
          injection hd with hd
          by_contra hne
          apply h1
          constructor
          · exact hd
          · intro hus
            exact hne (by rw [hus])
        · intro hd
          injection hd with hd
          by_contra hne
          apply h2
          constructor
          · exact hd
          · intro humem
            apply hne
            simp only [List.mem_cons, List.mem_singleton] at humem
            simp only [Option.some.injEq]
            tauto
      · rintro ⟨-, -, -, -, htail⟩
        exact htail

/-- C5 (witness): the characterisation applied to a concrete valid
non-interval distance workout. -/
theorem C5_is_valid_characterisation_witness : C5_workout_valid.is_valid = true :=
  (C5_is_valid_characterisation C5_workout_valid).mpr
    ⟨by decide, by decide, by decide, by decide,
      Or.inr ⟨by decide, by decide, by decide⟩⟩

/-- C6: the claim states that a changed misc-display value while a zone kind
is active makes `reset_bounds_if_flags_changed` return `True` *and* clear
all six bound pairs.  The method does return `True`, but the line
`self._reset_bounds` lacks call parentheses, so the populated bounds table
is left unchanged rather than being cleared. -/
theorem C6_reset_bounds_returns_true_but_keeps_bounds :
    C6_zone._zone_trigger_flags = some 1 ∧
    WorkoutMode.get_zone_type 3 ≠ "" ∧
    (Zone.reset_bounds_if_flags_changed C6_zone 3).2 = true ∧
    (Zone.reset_bounds_if_flags_changed C6_zone 3).1.bounds = C6_zone.bounds ∧
    C6_zone.bounds ≠ Zone.cleared_bounds := by
  decide

/-- C7 (counterexample): a pulse at 1000 ms followed by a keypad reset at
1100 ms leaves `paddle_turning` false even though a pulse event was
processed 100 ms ≤ 300 ms before the last check — the reset wipes the
recorded pulse timestamp and forces the flag off. -/
theorem C7_paddle_false_despite_recent_pulse :
    (run C7cex_events)._paddle_turning = false ∧
    lastPulseAt C7cex_events = some 1000 ∧
    lastProcessedAt C7cex_events = some 1100 ∧
    ((1100 : Int) - (1000 : Int) ≤ (NO_ROWING_PULSE_GAP : Int)) := by
  refine ⟨by with_unfolding_all decide, by decide, by decide, by decide⟩

/-- C7 (amended): over any trace that contains no `reset` event and whose
pulse events carry positive parse timestamps, after processing the trace
`paddle_turning` is true iff the last pulse event's timestamp is within
`NO_ROWING_PULSE_GAP` (300 ms) of the wall-clock time at which the last
event was processed; in particular it is false before any pulse. -/
theorem C7_paddle_iff_recent_pulse_without_reset (ps : List (S4Event × Nat))
    (hres : ∀ p ∈ ps, p.1.type ≠ "reset")
    (hpos : ∀ p ∈ ps, p.1.type = "pulse" → 0 < p.1.at_ms) :
    ((run ps)._paddle_turning = true ↔
      (∃ n t, lastProcessedAt ps = some n ∧ lastPulseAt ps = some t ∧
        (n : Int) - (t : Int) ≤ (NO_ROWING_PULSE_GAP : Int))) := by
  obtain ⟨-, hiff⟩ := run_pulse_invariant ps hres
  rw [hiff]
  constructor
  · rintro ⟨n, hn, hne, hle⟩
    rcases hlpa : lastPulseAt ps with _ | t
    · rw [hlpa] at hne
      simp at hne
    · rw [hlpa] at hle
      exact ⟨n, t, hn, rfl, by simpa using hle⟩
  · rintro ⟨n, t, hn, hlpa, hle⟩
    have hmem' : ∃ q ∈ ps, q.1.type = "pulse" ∧ q.1.at_ms = t := by
      unfold lastPulseAt at hlpa
      rcases hgl : (pulseEvents ps).getLast? with _ | q
      · rw [hgl] at hlpa
        cases hlpa
      · rw [hgl] at hlpa
        have hqmem : q ∈ pulseEvents ps := by
          have hq : q ∈ (pulseEvents ps).getLast? := Option.mem_def.mpr hgl
          obtain ⟨hne', heq'⟩ := List.mem_getLast?_eq_getLast hq
          rw [heq']
          exact List.getLast_mem hne'
        have hqps := List.mem_filter.mp hqmem
        injection hlpa with hlpa
        exact ⟨q, hqps.1, by simpa using hqps.2, hlpa⟩
    obtain ⟨q, hq, hqp, hqa⟩ := hmem'
    have htpos : 0 < t := hqa ▸ hpos q hq hqp
    refine ⟨n, hn, ?_, ?_⟩
    · rw [hlpa]
      have : t ≠ 0 := Nat.pos_iff_ne_zero.mp htpos
      simpa using this
    · rw [hlpa]
      simpa using hle

/-- C7 (witness): a pulse at 1000 ms then a ping processed at 1200 ms — the
paddle is reported as turning. -/
theorem C7_paddle_iff_recent_pulse_without_reset_witness :
    (run C7wit_events)._paddle_turning = true :=
  (C7_paddle_iff_recent_pulse_without_reset C7wit_events (by decide) (by decide)).mpr
    ⟨1200, 1000, by decide, by decide, by decide⟩

/-- C8: over any trace of `total_distance` and `total_distance_dec` events,
the internal centimetre counter after processing one more event is at least
its value before: `_handle_total_distance` leaves it unchanged and
`_handle_total_distance_dec` takes a maximum with the previous value (and
the pulse monitor never touches it). -/
theorem C8_total_distance_cm_monotone (ps : List (S4Event × Nat)) (p : S4Event × Nat)
    (h : ∀ q ∈ ps ++ [p], q.1.type = "total_distance" ∨ q.1.type = "total_distance_dec") :
    (run ps)._total_distance_cm ≤ (run (ps ++ [p]))._total_distance_cm := by
  rw [run_append]
  unfold processEvent
  have hp := h p (List.mem_append_right _ (List.mem_singleton.mpr rfl))
  calc (run ps)._total_distance_cm
      = (RowerState.pulse_monitor (run ps) p.1 p.2)._total_distance_cm :=
        (pulse_monitor_cm (run ps) p.1 p.2).symm
    _ ≤ _ := on_rower_event_cm_mono _ p.1 hp

/-- C8 (witness): a 138 m reading followed by a 95 cm dec reading — the
counter does not decrease. -/
theorem C8_total_distance_cm_monotone_witness :
    (run C8wit_trace)._total_distance_cm ≤
      (run (C8wit_trace ++ [C8wit_event]))._total_distance_cm :=
  C8_total_distance_cm_monotone C8wit_trace C8wit_event (by decide)

/-- C9: for every `MEMORY_MAP` entry declared little-endian with a
double or triple size, `read_reply` decodes a well-formed response line by
reversing the byte order: the two transmitted bytes `hi lo` decode to
`256·lo + hi`.  (Every little-endian entry of the shipped map is a double;
the triple case is vacuous over this map.) -/
theorem C9_little_endian_byte_swap (key : String) (f : MemoryField)
    (hmem : (key, f) ∈ MEMORY_MAP) (hend : f.endian = Endian.little)
    (hsz : f.size = MSize.double ∨ f.size = MSize.triple)
    (hi lo t : Nat) (hhi : hi < 256) (hlo : lo < 256) :
    read_reply ('I' :: 'D' :: 'D' :: (key.toList ++ (toHex2 hi ++ toHex2 lo))) t =
      some { type := f.type, value := some (256 * lo + hi),
             raw := some (String.mk
               ('I' :: 'D' :: 'D' :: (key.toList ++ (toHex2 hi ++ toHex2 lo)))),
             at_ms := t } := by
  clear hsz
  have hfacts := memoryMap_little_facts (key, f) hmem hend
  have hdouble : f.size = MSize.double := hfacts.1
  have hbase : f.base = 16 := hfacts.2.1
  have hklen : key.toList.length = 3 := hfacts.2.2
  have hdslen : (toHex2 hi ++ toHex2 lo).length = 4 := by
    simp [toHex2_length]
  have hlen : ('I' :: 'D' :: 'D' :: (key.toList ++ (toHex2 hi ++ toHex2 lo))).length = 10 := by
    simp only [List.length_cons, List.length_append, hklen, hdslen]
  have haddr : (('I' :: 'D' :: 'D' :: (key.toList ++ (toHex2 hi ++ toHex2 lo))).drop 3).take 3 =
      key.toList := by
    simp only [List.drop_succ_cons, List.drop_zero]
    exact List.take_left' hklen
  have hdrop6 : ('I' :: 'D' :: 'D' :: (key.toList ++ (toHex2 hi ++ toHex2 lo))).drop 6 =
      toHex2 hi ++ toHex2 lo := by
    simp only [List.drop_succ_cons, List.drop_zero]
    have h3 : List.drop 3 (key.toList ++ (toHex2 hi ++ toHex2 lo)) = toHex2 hi ++ toHex2 lo :=
      List.drop_left' hklen
    simpa using h3
  have hslice :
      sizeParseSlice MSize.double ('I' :: 'D' :: 'D' :: (key.toList ++ (toHex2 hi ++ toHex2 lo))) =
        toHex2 hi ++ toHex2 lo := by
    simp only [sizeParseSlice, hdrop6]
    exact List.take_of_length_le (by omega)
  have htake : (toHex2 hi ++ toHex2 lo).take 2 = toHex2 hi := List.take_left' (toHex2_length hi)
  have hdrop2 : ((toHex2 hi ++ toHex2 lo).drop 2).take 2 = toHex2 lo := by
    rw [List.drop_left' (toHex2_length hi)]
    exact List.take_of_length_le (by simp [toHex2_length])
  unfold read_reply
  simp only [String.toList] at haddr hdrop6 hslice
  have hmm : mmLookup key.data = some f := by
    have hl := mmLookup_of_mem key f hmem
    simpa [String.toList] using hl
  rw [hlen]
  rw [if_neg (by omega)]
  simp only [String.toList, haddr, hmm, hslice, hbase,
    parseIntStr_toHex2_pair hi lo hhi hlo, hend, hdouble, hdslen,
    htake, hdrop2, parseIntStr_toHex2 hi hhi, parseIntStr_toHex2 lo hlo]
  simp [lor_shiftLeft8_eq lo hi hhi]

/-- C9 (witness): scenario F — the line `IDD1A57C00` decodes to the
`500m_pace` event with value `0x007C = 124`. -/
theorem C9_little_endian_byte_swap_witness :
    read_reply ("IDD1A57C00".toList) 0 =
      some { type := "500m_pace", value := some 124, raw := some "IDD1A57C00", at_ms := 0 } := by
  have hmem : (("1A5" : String),
      ({ type := "500m_pace", size := MSize.double, base := 16, endian := Endian.little,
         frequency := "high", category := "rowing",
         exclude_from_poll_loop := true } : MemoryField)) ∈ MEMORY_MAP := by decide
  have h := C9_little_endian_byte_swap "1A5" _ hmem rfl (Or.inl rfl) 124 0 0
    (by norm_num) (by norm_num)
  have hcmd : ('I' :: 'D' :: 'D' :: (("1A5" : String).toList ++ (toHex2 124 ++ toHex2 0))) =
      "IDD1A57C00".toList := by decide
  rw [hcmd] at h
  simpa using h

/-- C10: once `update_if_flags_changed` has rebuilt the builder for an
interval workout (`intervals_set = some true`, `intervals = none`), no
sequence of `update_from_event` calls ever sets `intervals` — the
`workout_intervals` arm writes the unrelated `workout` attribute — and
consequently `is_valid` never returns true. -/
theorem C10_intervals_none_and_never_valid (w0 : Workout) (flags : Nat)
    (hint : WorkoutMode.is_interval flags = true)
    (hch : (Workout.update_if_flags_changed w0 flags).2 = true)
    (evts : List S4Event) :
    (evts.foldl Workout.update_from_event (Workout.update_if_flags_changed w0 flags).1).intervals
        = none ∧
    (evts.foldl Workout.update_from_event (Workout.update_if_flags_changed w0 flags).1).is_valid
        = false := by
  rw [update_if_flags_changed_of_changed w0 flags hch]
  obtain ⟨h1, h2⟩ := update_flags_go_interval flags hint
  obtain ⟨f1, f2⟩ := foldl_update_intervals evts (Workout.update_flags_go flags).1
  refine ⟨f1.trans h1, ?_⟩
  exact is_valid_false_of_interval_unset _ (f1.trans h1) (f2.trans h2)

/-- C10 (witness): a distance-interval flag byte (64) followed by an
interval-count event and a work-leg event — `intervals` stays `None` and the
builder never validates. -/
theorem C10_intervals_none_and_never_valid_witness :
    (([({ type := "workout_intervals", value := some 3 } : S4Event),
       ({ type := "workout_work1", value := some 1000 } : S4Event)] : List S4Event).foldl
        Workout.update_from_event (Workout.update_if_flags_changed Workout.init 64).1).intervals
        = none ∧
    (([({ type := "workout_intervals", value := some 3 } : S4Event),
       ({ type := "workout_work1", value := some 1000 } : S4Event)] : List S4Event).foldl
        Workout.update_from_event (Workout.update_if_flags_changed Workout.init 64).1).is_valid
        = false :=
  C10_intervals_none_and_never_valid Workout.init 64 (by decide) (by decide) _

end WRowFusion
